import Mathlib

/-!
Verification of the cyber_care event pipeline
(src/cybercare/event_consumer.py and src/cybercare/event_propagator.py)
against its natural-language specification.

The Python code is shallowly embedded: JSON values are an inductive type,
the SQLite-backed store is a `DBState` (rows plus the AUTOINCREMENT
sequence counter), the filesystem holding databases is a map from paths
to optional database states, and the FastAPI request handler is a pure
function from the parsed request body and the store state to a response
and a new store state.  Randomness (random.choice) and wall-clock time
are passed in explicitly as arguments.
-/

namespace CyberCare

/-- JSON values as produced by Python json.loads / FastAPI request.json().
An object models a parsed Python dict, so its field names are distinct
(json.loads keeps only the last of duplicate keys). -/
inductive Json where
  | null
  | bool (b : Bool)
  | num (n : Int)
  | str (s : String)
  | arr (elems : List Json)
  | obj (fields : List (String × Json))

/-- True exactly when the JSON value is an object (a Python dict).
EventModel(**event_data) only makes sense for a dict; any other value
raises TypeError, which the handler's generic except turns into a 500. -/
def Json.isObj : Json → Bool
  | Json.obj _ => true
  | _ => false

/-- One row of the events table created by DatabaseManager.init_database
(columns id, event_type, event_payload, received_at; created_at is a
server default and carries no pipeline information, so it is merged with
received_at into one abstract timestamp here). -/
structure StoredEvent where
  id : Nat
  event_type : String
  event_payload : String
  received_at : Nat

/-- The state of one SQLite database file: the rows of the events table
together with the AUTOINCREMENT sequence counter (the largest id ever
assigned; sqlite persists it, so it is never reset by reopening). -/
structure DBState where
  rows : List StoredEvent
  seq : Nat

/-- DatabaseManager.init_database at one location: CREATE TABLE IF NOT
EXISTS creates the empty schema when the database does not exist yet and
leaves an existing database completely unchanged. -/
def init_database : Option DBState → DBState
  | none => ⟨[], 0⟩
  | some db => db

/-- DatabaseManager.save_event: INSERT a row; sqlite assigns the next
AUTOINCREMENT id (seq + 1) and cursor.lastrowid returns it.  The caller
supplies the wall-clock time (datetime.now().isoformat()). -/
def save_event (db : DBState) (event_type event_payload : String) (now : Nat) :
    Nat × DBState :=
  let event_id := db.seq + 1
  (event_id, ⟨db.rows ++ [⟨event_id, event_type, event_payload, now⟩], event_id⟩)

/-- Field lookup in a parsed JSON object.  The field lists embedded here
model Python dicts, whose keys are distinct, so first match is the match. -/
def lookupField (fields : List (String × Json)) (k : String) : Option Json :=
  match fields with
  | [] => none
  | (k₀, v) :: rest => if k₀ = k then some v else lookupField rest k

/-- Pydantic validation of EventModel(**event_data) for a dict body:
event_type and event_payload must both be present and be strings (extra
fields are ignored, the default pydantic config; empty strings pass, the
fields are plain str with no constraint).  On failure the pydantic
error text is returned. -/
def validateEvent (fields : List (String × Json)) :
    Except String (String × String) :=
  match lookupField fields "event_type" with
  | some (Json.str t) =>
    match lookupField fields "event_payload" with
    | some (Json.str p) => Except.ok (t, p)
    | some _ => Except.error "event_payload: Input should be a valid string"
    | none => Except.error "event_payload: Field required"
  | some _ => Except.error "event_type: Input should be a valid string"
  | none => Except.error "event_type: Field required"

/-- An HTTP response: status code and JSON body. -/
structure Response where
  status : Nat
  body : Json

/-- The JSON body FastAPI renders for an HTTPException with the given
detail string. -/
def detailBody (msg : String) : Json :=
  Json.obj [("detail", Json.str msg)]

/-- The success body returned by receive_event. -/
def successBody (event_id : Nat) : Json :=
  Json.obj [("status", Json.str "success"),
            ("message", Json.str "Event saved successfully"),
            ("event_id", Json.num (Int.ofNat event_id))]

/-- The POST /event handler receive_event, parameterised over the save
operation so that a storage failure (an exception from save_event, caught
by the handler's generic except clause) can be modelled.
  - body = none models a body whose bytes are valid UTF-8 text that
    json could not parse (json.JSONDecodeError → 400 "Invalid JSON
    format"); a body whose bytes are not valid UTF-8 raises
    UnicodeDecodeError instead, which is not a JSONDecodeError and is
    modelled one layer up, in receive_event_raw;
  - a non-object body makes EventModel(**event_data) raise TypeError,
    which falls into the generic except clause → 500 "Internal server
    error";
  - an object body is validated; ValidationError → 400 with
    "Invalid data format: ..." detail; otherwise save is called and its
    failure → 500, its success → 200 with the success body.
The store state is returned unchanged on every non-200 path. -/
def receive_event_core (body : Option Json)
    (save : String → String → Except String (Nat × DBState))
    (db : DBState) : Response × DBState :=
  match body with
  | none => (⟨400, detailBody "Invalid JSON format"⟩, db)
  | some (Json.obj fields) =>
    match validateEvent fields with
    | Except.error msg =>
      (⟨400, detailBody ("Invalid data format: " ++ msg)⟩, db)
    | Except.ok (t, p) =>
      match save t p with
      | Except.error _ => (⟨500, detailBody "Internal server error"⟩, db)
      | Except.ok (event_id, db₁) => (⟨200, successBody event_id⟩, db₁)
  | some _ => (⟨500, detailBody "Internal server error"⟩, db)

/-- receive_event with the real save_event as the save operation. -/
def receive_event (body : Option Json) (db : DBState) (now : Nat) :
    Response × DBState :=
  receive_event_core body (fun t p => Except.ok (save_event db t p now)) db

/-- The raw bytes of a request body, classified by what
await request.json() does with them: bytes that are not valid UTF-8
(e.g. the single byte 0xff) make it raise UnicodeDecodeError; valid
UTF-8 text that is not JSON makes it raise json.JSONDecodeError; and
JSON text parses to a value. -/
inductive RawBody where
  | invalidUtf8
  | notJson
  | json (j : Json)

/-- The POST /event handler taken from the raw body bytes.
UnicodeDecodeError is not a subclass of json.JSONDecodeError, so for
undecodable bytes the exception skips the except json.JSONDecodeError
clause and lands in the generic except clause: status 500 with detail
"Internal server error", store unchanged.  The two other cases are the
receive_event paths. -/
def receive_event_raw (b : RawBody) (db : DBState) (now : Nat) :
    Response × DBState :=
  match b with
  | RawBody.invalidUtf8 => (⟨500, detailBody "Internal server error"⟩, db)
  | RawBody.notJson => receive_event none db now
  | RawBody.json j => receive_event (some j) db now

/-- Process a sequence of POST /event submissions against one store,
threading the store state through (each request carries its parsed body,
or none for unparseable bytes, and the wall-clock time of its arrival). -/
def runRequests (db : DBState) (reqs : List (Option Json × Nat)) :
    List Response × DBState :=
  match reqs with
  | [] => ([], db)
  | (body, now) :: rest =>
    let step := receive_event body db now
    let tail := runRequests step.2 rest
    (step.1 :: tail.1, tail.2)

/-- The event_id field of a JSON response body, when present. -/
def respEventId (r : Response) : Option Int :=
  match r.body with
  | Json.obj fields =>
    match lookupField fields "event_id" with
    | some (Json.num n) => some n
    | _ => none
  | _ => none

/-- The event_id values of the successful (status 200) responses, in
order. -/
def successIds (rs : List Response) : List Int :=
  rs.filterMap fun r => if r.status = 200 then respEventId r else none

/-- EventPropagator.get_random_event: returns None when the catalog is
empty, otherwise random.choice(self.events).  random.choice draws a
uniformly random index below len(seq) and returns the element there; the
drawn index is the explicit argument r (reduced mod the length so that
the model is total; a uniform draw r < length is untouched by the mod). -/
def get_random_event (events : List Json) (r : Nat) : Option Json :=
  if events.isEmpty then none
  else events[r % events.length]?

/-- What one execution of EventPropagator.start observably did: the
events handed to send_event in order, and whether the while-loop
(the Idle/tick cycle) was ever entered. -/
structure LoopTrace where
  sends : List Json
  enteredLoop : Bool

/-- EventPropagator.start: with an empty catalog it prints and returns
before the while-loop, so no tick ever happens; otherwise each tick
draws one random index, sends the chosen event, and sleeps.  rngs lists
the random draws of the ticks that run before cancellation (the loop is
infinite; cancellation between ticks truncates it). -/
def start (events : List Json) (rngs : List Nat) : LoopTrace :=
  if events.isEmpty then ⟨[], false⟩
  else ⟨rngs.filterMap (fun r => get_random_event events r), true⟩

/-- Outcome of opening and parsing the events file: the file may be
missing (FileNotFoundError), unparseable (json.JSONDecodeError), or a
JSON list of events. -/
inductive FileResult where
  | missing
  | malformed
  | content (events : List Json)

/-- EventPropagator.load_events: both a missing file and a malformed
file are caught and turned into an empty catalog (no error escapes);
otherwise the parsed list is the catalog. -/
def load_events : FileResult → List Json
  | FileResult.missing => []
  | FileResult.malformed => []
  | FileResult.content events => events

/-- The filesystem as seen by sqlite3.connect: each path holds a
database state, or nothing if no database file exists there yet. -/
def FileSystem : Type := String → Option DBState

/-- Running DatabaseManager.init_database against the database at one
path of the filesystem (sqlite3.connect creates the file when missing;
CREATE TABLE IF NOT EXISTS leaves existing contents alone). -/
def fsInit (fs : FileSystem) (path : String) : FileSystem :=
  fun q => if q = path then some (init_database (fs path)) else fs q

/-- The event_consumer section of the configuration as far as the
database is concerned: the optional database.path key (config.get
supplies the default events.db when absent). -/
structure ConsumerConfig where
  dbPath : Option String

/-- The database path DatabaseManager resolves from a configuration:
config.get with default, or the hardcoded default config when the
configuration file was missing. -/
def resolveDbPath (cfg : Option ConsumerConfig) : String :=
  match cfg with
  | none => "events.db"
  | some c => c.dbPath.getD "events.db"

/-- The consumer state main() leaves behind before serving: the
filesystem after all schema initialisations, the path the active
DatabaseManager saves to, and the path GET / reports. -/
structure ConsumerSetup where
  fs : FileSystem
  activePath : String
  reportedPath : String

/-- event_consumer.main up to uvicorn.run: EventConsumer.__init__
constructs a DatabaseManager from the configuration (initialising the
schema at the configured path); then, if --db-path was given and truthy
(argparse yields None when absent, and an empty string is falsy in
Python), the config is mutated to the override and a second
DatabaseManager is constructed, initialising the schema at the override
path, which all later saves and the GET / report use. -/
def consumer_main (cfg : Option ConsumerConfig) (dbPathOverride : Option String)
    (fs : FileSystem) : ConsumerSetup :=
  let configuredPath := resolveDbPath cfg
  let fs₁ := fsInit fs configuredPath
  match dbPathOverride with
  | some p =>
    if p = "" then ⟨fs₁, configuredPath, configuredPath⟩
    else ⟨fsInit fs₁ p, p, p⟩
  | none => ⟨fs₁, configuredPath, configuredPath⟩

/-! ## Store invariant and run lemmas -/

/-- The store invariant: every stored id is bounded by the sequence
counter, and the stored ids are strictly increasing along the table. -/
def DBInv (db : DBState) : Prop :=
  (∀ r ∈ db.rows, r.id ≤ db.seq) ∧
  List.Pairwise (fun a b : StoredEvent => a.id < b.id) db.rows

/-- A well-formed sample submission body, used by concrete witnesses. -/
def sampleBody : Option Json :=
  some (Json.obj [("event_type", Json.str "login"),
                  ("event_payload", Json.str "user123")])

/-- A body whose two fields are empty strings — valid for the code
(pydantic str has no non-emptiness constraint), used to test the spec's
non-emptiness requirement. -/
def emptyStringsBody : Json :=
  Json.obj [("event_type", Json.str ""), ("event_payload", Json.str "")]

/-- Each request either succeeds — status 200, the response carries
event_id = seq + 1, and exactly that row is appended — or leaves the
store untouched with a non-200 status. -/
theorem receive_event_step (body : Option Json) (db : DBState) (now : Nat) :
    ((receive_event body db now).1.status = 200 ∧
     respEventId (receive_event body db now).1 = some (Int.ofNat (db.seq + 1)) ∧
     (receive_event body db now).2.seq = db.seq + 1 ∧
     ∃ t p, (receive_event body db now).2.rows
        = db.rows ++ [⟨db.seq + 1, t, p, now⟩]) ∨
    ((receive_event body db now).1.status ≠ 200 ∧
     (receive_event body db now).2 = db) := by
  cases body with
  | none => exact Or.inr ⟨by simp [receive_event, receive_event_core], rfl⟩
  | some j =>
    cases j with
    | null => exact Or.inr ⟨by simp [receive_event, receive_event_core], rfl⟩
    | bool b => exact Or.inr ⟨by simp [receive_event, receive_event_core], rfl⟩
    | num n => exact Or.inr ⟨by simp [receive_event, receive_event_core], rfl⟩
    | str s => exact Or.inr ⟨by simp [receive_event, receive_event_core], rfl⟩
    | arr xs => exact Or.inr ⟨by simp [receive_event, receive_event_core], rfl⟩
    | obj fields =>
      cases hv : validateEvent fields with
      | error msg =>
        refine Or.inr ⟨?_, ?_⟩ <;>
          simp [receive_event, receive_event_core, hv]
      | ok tp =>
        obtain ⟨t, p⟩ := tp
        refine Or.inl ⟨?_, ?_, ?_, t, p, ?_⟩ <;>
          simp [receive_event, receive_event_core, hv, save_event,
                respEventId, successBody, lookupField]

/-- Running any request sequence from an invariant-satisfying store:
every successful event_id exceeds the starting sequence value, the
successful event_ids are strictly increasing, the invariant is
preserved, and the sequence counter never decreases. -/
theorem runRequests_inv (reqs : List (Option Json × Nat)) :
    ∀ db : DBState, DBInv db →
      (∀ i ∈ successIds (runRequests db reqs).1, (Int.ofNat db.seq) < i) ∧
      List.Pairwise (· < ·) (successIds (runRequests db reqs).1) ∧
      DBInv (runRequests db reqs).2 ∧
      db.seq ≤ (runRequests db reqs).2.seq := by
  induction reqs with
  | nil =>
    intro db hinv
    simp only [runRequests, successIds, List.filterMap_nil]
    exact ⟨by simp, by simp, hinv, le_refl _⟩
  | cons req rest ih =>
    intro db hinv
    obtain ⟨body, now⟩ := req
    rcases receive_event_step body db now with hs | hf
    · obtain ⟨hst, hid, hseq, t, p, hrows⟩ := hs
      have hinv₁ : DBInv (receive_event body db now).2 := by
        constructor
        · intro r hr
          rw [hrows] at hr
          rw [hseq]
          rcases List.mem_append.1 hr with h | h
          · exact Nat.le_succ_of_le (hinv.1 r h)
          · simp only [List.mem_singleton] at h
            subst h
            exact le_refl _
        · rw [hrows]
          refine (List.pairwise_append).2 ⟨hinv.2, List.pairwise_singleton _ _, ?_⟩
          intro a ha b hb
          simp only [List.mem_singleton] at hb
          subst hb
          exact Nat.lt_succ_of_le (hinv.1 a ha)
      have htail := ih (receive_event body db now).2 hinv₁
      have hids : successIds (runRequests db ((body, now) :: rest)).1 =
          Int.ofNat (db.seq + 1) ::
            successIds (runRequests (receive_event body db now).2 rest).1 := by
        simp [runRequests, successIds, List.filterMap_cons, hst, hid]
      refine ⟨?_, ?_, ?_, ?_⟩
      · intro i hi
        rw [hids] at hi
        rcases List.mem_cons.1 hi with h | h
        · subst h
          exact Int.ofNat_lt.2 (Nat.lt_succ_self _)
        · have := htail.1 i h
          rw [hseq] at this
          calc (Int.ofNat db.seq) < Int.ofNat (db.seq + 1) :=
                Int.ofNat_lt.2 (Nat.lt_succ_self _)
            _ < i := this
      · rw [hids]
        refine (List.pairwise_cons).2 ⟨?_, htail.2.1⟩
        intro i hi
        have := htail.1 i hi
        rw [hseq] at this
        exact this
      · have : (runRequests db ((body, now) :: rest)).2 =
            (runRequests (receive_event body db now).2 rest).2 := by
          simp [runRequests]
        rw [this]
        exact htail.2.2.1
      · have : (runRequests db ((body, now) :: rest)).2 =
            (runRequests (receive_event body db now).2 rest).2 := by
          simp [runRequests]
        rw [this]
        calc db.seq ≤ db.seq + 1 := Nat.le_succ _
          _ = (receive_event body db now).2.seq := hseq.symm
          _ ≤ _ := htail.2.2.2
    · obtain ⟨hst, hdb⟩ := hf
      have htail := ih (receive_event body db now).2 (by rw [hdb]; exact hinv)
      have hids : successIds (runRequests db ((body, now) :: rest)).1 =
          successIds (runRequests (receive_event body db now).2 rest).1 := by
        simp [runRequests, successIds, List.filterMap_cons, if_neg hst]
      have hfin : (runRequests db ((body, now) :: rest)).2 =
          (runRequests (receive_event body db now).2 rest).2 := by
        simp [runRequests]
      refine ⟨?_, ?_, ?_, ?_⟩
      · intro i hi
        rw [hids] at hi
        have := htail.1 i hi
        rw [hdb] at this
        exact this
      · rw [hids]; exact htail.2.1
      · rw [hfin]; exact htail.2.2.1
      · rw [hfin]
        have h₁ : db.seq = (receive_event body db now).2.seq := by rw [hdb]
        rw [h₁]
        exact htail.2.2.2

/-! ## Claim theorems -/

/-- C1: across any sequence of POST /event submissions in one store
lifetime (any starting state satisfying the store invariant, which holds
for a fresh store and is preserved by every request), the event_id
values of the successful responses are strictly increasing — each
exceeds every earlier one — and the ids stored in the table are
strictly increasing and pairwise distinct. -/
theorem spec_c1 (reqs : List (Option Json × Nat)) (db : DBState)
    (hinv : DBInv db) :
    List.Pairwise (· < ·) (successIds (runRequests db reqs).1) ∧
    List.Pairwise (· < ·) ((runRequests db reqs).2.rows.map StoredEvent.id) ∧
    ((runRequests db reqs).2.rows.map StoredEvent.id).Nodup := by
  have h := runRequests_inv reqs db hinv
  refine ⟨h.2.1, ?_, ?_⟩
  · exact (List.pairwise_map).2 h.2.2.1.2
  · exact ((List.pairwise_map).2 h.2.2.1.2).imp fun hab => Nat.ne_of_lt hab

/-- Witness for C1: two concrete valid submissions into a fresh store. -/
theorem spec_c1_witness :
    DBInv ⟨[], 0⟩ ∧
    (List.Pairwise (· < ·)
        (successIds (runRequests ⟨[], 0⟩ [(sampleBody, 0), (sampleBody, 1)]).1) ∧
     List.Pairwise (· < ·)
        ((runRequests ⟨[], 0⟩ [(sampleBody, 0), (sampleBody, 1)]).2.rows.map
          StoredEvent.id) ∧
     ((runRequests ⟨[], 0⟩ [(sampleBody, 0), (sampleBody, 1)]).2.rows.map
          StoredEvent.id).Nodup) :=
  ⟨⟨by simp, List.Pairwise.nil⟩,
   spec_c1 [(sampleBody, 0), (sampleBody, 1)] ⟨[], 0⟩
     ⟨by simp, List.Pairwise.nil⟩⟩

/-- C2 counterexample: the claim requires non-empty strings and a 400
for every malformed shape, but the code accepts a body whose two fields
are empty strings (status 200, a row is inserted), and answers 500 — not
400 — to a JSON array body (EventModel(**data) raises TypeError, caught
by the generic except clause). -/
theorem spec_c2_counterexample :
    ((receive_event (some emptyStringsBody) ⟨[], 0⟩ 0).1.status = 200 ∧
     (receive_event (some emptyStringsBody) ⟨[], 0⟩ 0).2.rows.length = 1) ∧
    ((receive_event (some (Json.arr [])) ⟨[], 0⟩ 0).1.status = 500 ∧
     (receive_event (some (Json.arr [])) ⟨[], 0⟩ 0).2.rows.length = 0) :=
  ⟨⟨rfl, rfl⟩, rfl, rfl⟩

/-- C2 (amended): a JSON body is accepted exactly when it is an object
whose event_type and event_payload fields are both strings (possibly
empty; extra fields are ignored); an object body with a missing or
wrong-typed field is rejected with status 400 and a detail message
describing the violation and inserts no row; a non-object body yields
status 500 and inserts no row. -/
theorem spec_c2 (fields : List (String × Json)) (j : Json) (db : DBState)
    (now : Nat) (t p msg : String) :
    (validateEvent fields = Except.ok (t, p) →
      receive_event (some (Json.obj fields)) db now =
        (⟨200, successBody (db.seq + 1)⟩,
         ⟨db.rows ++ [⟨db.seq + 1, t, p, now⟩], db.seq + 1⟩)) ∧
    (validateEvent fields = Except.error msg →
      receive_event (some (Json.obj fields)) db now =
        (⟨400, detailBody ("Invalid data format: " ++ msg)⟩, db)) ∧
    (j.isObj = false →
      receive_event (some j) db now =
        (⟨500, detailBody "Internal server error"⟩, db)) := by
  refine ⟨?_, ?_, ?_⟩
  · intro hv
    simp [receive_event, receive_event_core, hv, save_event]
  · intro hv
    simp [receive_event, receive_event_core, hv]
  · intro hobj
    cases j <;> simp_all [Json.isObj, receive_event, receive_event_core]

/-- Witness for C2 (amended): a valid body, a body missing
event_payload, and a non-object body, each against a fresh store. -/
theorem spec_c2_witness :
    receive_event (some (Json.obj [("event_type", Json.str "login"),
        ("event_payload", Json.str "ok")])) ⟨[], 0⟩ 7 =
      (⟨200, successBody 1⟩, ⟨[⟨1, "login", "ok", 7⟩], 1⟩) ∧
    receive_event (some (Json.obj [("event_type", Json.str "login")])) ⟨[], 0⟩ 7 =
      (⟨400, detailBody "Invalid data format: event_payload: Field required"⟩,
       ⟨[], 0⟩) ∧
    receive_event (some Json.null) ⟨[], 0⟩ 7 =
      (⟨500, detailBody "Internal server error"⟩, ⟨[], 0⟩) :=
  ⟨(spec_c2 [("event_type", Json.str "login"), ("event_payload", Json.str "ok")]
      Json.null ⟨[], 0⟩ 7 "login" "ok" "").1 rfl,
   (spec_c2 [("event_type", Json.str "login")] Json.null ⟨[], 0⟩ 7 "" ""
      "event_payload: Field required").2.1 rfl,
   (spec_c2 [] Json.null ⟨[], 0⟩ 7 "" "" "").2.2 rfl⟩

/-- C3: every valid submission is answered with status 200 and exactly
the body with status "success", message "Event saved successfully" and
event_id the identifier newly assigned by save_event, whose updated
state becomes the store state. -/
theorem spec_c3 (fields : List (String × Json)) (t p : String)
    (db : DBState) (now : Nat)
    (hv : validateEvent fields = Except.ok (t, p)) :
    receive_event (some (Json.obj fields)) db now =
      (⟨200, successBody (save_event db t p now).1⟩,
       (save_event db t p now).2) := by
  simp [receive_event, receive_event_core, hv]

/-- Witness for C3: a concrete valid submission. -/
theorem spec_c3_witness :
    receive_event (some (Json.obj [("event_type", Json.str "login"),
        ("event_payload", Json.str "user123")])) ⟨[], 5⟩ 9 =
      (⟨200, successBody
          (save_event ⟨[], 5⟩ "login" "user123" 9).1⟩,
       (save_event ⟨[], 5⟩ "login" "user123" 9).2) :=
  spec_c3 [("event_type", Json.str "login"),
           ("event_payload", Json.str "user123")] "login" "user123"
    ⟨[], 5⟩ 9 rfl

/-- C4 counterexample: the claim promises status 400 for every body not
parseable as JSON, but a body of invalid UTF-8 bytes (e.g. the single
byte 0xff) makes request.json() raise UnicodeDecodeError, which is not
a json.JSONDecodeError; it lands in the generic except clause and is
answered with status 500, not 400 (no row is inserted either way). -/
theorem spec_c4_counterexample :
    (receive_event_raw RawBody.invalidUtf8 ⟨[], 0⟩ 0).1.status = 500 ∧
    (receive_event_raw RawBody.invalidUtf8 ⟨[], 0⟩ 0).2.rows.length = 0 :=
  ⟨rfl, rfl⟩

/-- C4 (amended): a body of valid UTF-8 text that is not parseable as
JSON is answered with status 400 and detail "Invalid JSON format"; a
body that is not valid UTF-8 raises UnicodeDecodeError inside
request.json() and is answered by the generic handler with status 500
and detail "Internal server error"; in both cases no row is inserted. -/
theorem spec_c4 (db : DBState) (now : Nat) :
    receive_event_raw RawBody.notJson db now =
      (⟨400, detailBody "Invalid JSON format"⟩, db) ∧
    receive_event_raw RawBody.invalidUtf8 db now =
      (⟨500, detailBody "Internal server error"⟩, db) :=
  ⟨rfl, rfl⟩

/-- C5: when the save operation fails — whatever the exception text —
the response is status 500 with the fixed detail "Internal server
error" and the store is unchanged, so no internal detail reaches the
caller. -/
theorem spec_c5 (fields : List (String × Json)) (t p e : String)
    (db : DBState) (save : String → String → Except String (Nat × DBState))
    (hv : validateEvent fields = Except.ok (t, p))
    (hs : save t p = Except.error e) :
    receive_event_core (some (Json.obj fields)) save db =
      (⟨500, detailBody "Internal server error"⟩, db) := by
  simp [receive_event_core, hv, hs]

/-- Witness for C5: a concrete failing save operation. -/
theorem spec_c5_witness :
    receive_event_core (some (Json.obj [("event_type", Json.str "a"),
        ("event_payload", Json.str "b")]))
      (fun _ _ => Except.error "disk I/O error") ⟨[], 0⟩ =
      (⟨500, detailBody "Internal server error"⟩, ⟨[], 0⟩) :=
  spec_c5 [("event_type", Json.str "a"), ("event_payload", Json.str "b")]
    "a" "b" "disk I/O error" ⟨[], 0⟩
    (fun _ _ => Except.error "disk I/O error") rfl rfl

/-- C6: get_random_event returns none on the empty catalog; on a
non-empty catalog it returns some element of the catalog (never a value
outside it); and the random index maps each position of the catalog to
the element there, so a uniformly drawn index (what random.choice
supplies, freshly on each call) yields a uniformly chosen catalog
position. -/
theorem spec_c6 (events : List Json) (r : Nat) :
    (get_random_event [] r = none) ∧
    (events ≠ [] →
      ∃ x, get_random_event events r = some x ∧ x ∈ events) ∧
    (∀ i, i < events.length → get_random_event events i = events[i]?) := by
  refine ⟨rfl, ?_, ?_⟩
  · intro hne
    have hlen : 0 < events.length := List.length_pos.2 hne
    have hlt : r % events.length < events.length := Nat.mod_lt _ hlen
    refine ⟨events[r % events.length], ?_, List.getElem_mem hlt⟩
    simp [get_random_event, List.isEmpty_iff, hne,
          List.getElem?_eq_getElem hlt]
  · intro i hi
    have hne : events ≠ [] := by
      intro h
      rw [h] at hi
      exact Nat.not_lt_zero _ hi
    simp [get_random_event, List.isEmpty_iff, hne, Nat.mod_eq_of_lt hi]

/-- Witness for C6: the empty catalog, and a two-element catalog with an
out-of-range and an in-range draw. -/
theorem spec_c6_witness :
    (get_random_event [] 3 = none) ∧
    (∃ x, get_random_event [Json.str "a", Json.str "b"] 5 = some x ∧
      x ∈ [Json.str "a", Json.str "b"]) ∧
    (get_random_event [Json.str "a", Json.str "b"] 1 =
      [Json.str "a", Json.str "b"][1]?) :=
  ⟨(spec_c6 [] 3).1,
   (spec_c6 [Json.str "a", Json.str "b"] 5).2.1 (by simp),
   (spec_c6 [Json.str "a", Json.str "b"] 5).2.2 1 (by decide)⟩

/-- C7: with an empty catalog, start returns before the while-loop: the
Idle/tick cycle is never entered and zero sends happen, whatever random
draws would have been available. -/
theorem spec_c7 (rngs : List Nat) (events : List Json)
    (h : events = []) : start events rngs = ⟨[], false⟩ := by
  subst h
  rfl

/-- Witness for C7: the empty catalog with random draws available. -/
theorem spec_c7_witness : start [] [1, 2, 3] = ⟨[], false⟩ :=
  spec_c7 [1, 2, 3] [] rfl

/-- C8: a missing events file and a malformed events file are both
caught inside load_events and yield the empty catalog — no error
escapes — and with that empty catalog the propagator loop performs zero
sends and never enters its tick cycle. -/
theorem spec_c8 (rngs : List Nat) :
    load_events FileResult.missing = [] ∧
    load_events FileResult.malformed = [] ∧
    start (load_events FileResult.missing) rngs = ⟨[], false⟩ ∧
    start (load_events FileResult.malformed) rngs = ⟨[], false⟩ :=
  ⟨rfl, rfl, rfl, rfl⟩

/-- C9: initialising the store twice equals initialising it once (no
exception is modelled because none can arise: CREATE TABLE IF NOT
EXISTS): the schema, the rows and the next assigned id are unchanged by
the second init, at the level of one database state and at the level of
a location in the filesystem. -/
theorem spec_c9 (s : Option DBState) (fs : FileSystem) (loc q : String)
    (t p : String) (now : Nat) :
    init_database (some (init_database s)) = init_database s ∧
    save_event (init_database (some (init_database s))) t p now =
      save_event (init_database s) t p now ∧
    fsInit (fsInit fs loc) loc q = fsInit fs loc q := by
  refine ⟨rfl, rfl, ?_⟩
  by_cases h : q = loc <;> simp [fsInit, init_database, h]

/-- C10: when --db-path is given (a non-empty override), the schema is
initialised first at the configured path (default events.db) and then
at the override path; the resulting setup saves to the override path and
GET / reports the override path; and both locations hold an initialised
database. -/
theorem spec_c10 (cfg : Option ConsumerConfig) (p : String)
    (fs : FileSystem) (hp : p ≠ "") :
    consumer_main cfg (some p) fs =
      ⟨fsInit (fsInit fs (resolveDbPath cfg)) p, p, p⟩ ∧
    ((fsInit (fsInit fs (resolveDbPath cfg)) p) (resolveDbPath cfg)).isSome ∧
    ((fsInit (fsInit fs (resolveDbPath cfg)) p) p).isSome := by
  refine ⟨?_, ?_, ?_⟩
  · simp [consumer_main, hp]
  · by_cases h : resolveDbPath cfg = p <;> simp [fsInit, h]
  · simp [fsInit]

/-- Witness for C10: no configuration file, override path other.db,
empty filesystem. -/
theorem spec_c10_witness :
    consumer_main none (some "other.db") (fun _ => none) =
      ⟨fsInit (fsInit (fun _ => none) (resolveDbPath none)) "other.db",
       "other.db", "other.db"⟩ ∧
    ((fsInit (fsInit (fun _ => none) (resolveDbPath none)) "other.db")
        (resolveDbPath none)).isSome ∧
    ((fsInit (fsInit (fun _ => none) (resolveDbPath none)) "other.db")
        "other.db").isSome :=
  spec_c10 none "other.db" (fun _ => none) (by simp)

end CyberCare
